import Mathlib

/-!
Shallow embedding of `src/script-verificado.py`, a Telegram channel cloner
built on Telethon.  Messages are modelled as records with optional date
(day granularity, as an `Int`), a text body (a `String`, empty meaning no
text, matching Python truthiness of `message.text`) and an optional media
payload (an opaque `Nat`).  Interactive input is modelled as a list of the
strings the user types; network side effects of the replication loop are
modelled as an event trace, with the outcome of each send call supplied by
an environment function.
-/

namespace Clonner

/-- Model of a Telethon message as used by the script: `id`, optional
usable date (`None`/missing/`date()`-failure collapse to `none`), the text
body and the optional media payload. -/
structure Msg where
  id : Nat
  date : Option Int
  text : String
  media : Option Nat
  deriving Repr, DecidableEq

/-- Drop leading and trailing whitespace from a character list. -/
def pyStripList (l : List Char) : List Char :=
  ((l.dropWhile Char.isWhitespace).reverse.dropWhile Char.isWhitespace).reverse

/-- Model of Python `str.strip()`. -/
def pyStrip (s : String) : String :=
  ⟨pyStripList s.data⟩

/-- Model of Python `str.isdigit()`: nonempty and every character a
digit. -/
def pyIsDigit (s : String) : Bool :=
  !s.data.isEmpty && s.data.all Char.isDigit

/-- Numeric value of a digit string, most significant first. -/
def digitsVal : List Char → Nat → Nat
  | [], acc => acc
  | c :: cs, acc => digitsVal cs (acc * 10 + (c.toNat - '0'.toNat))

/-- Value of `int(s)` on an all-digits string. -/
def pyDigitsToNat (s : String) : Nat :=
  digitsVal s.data 0

/-- Model of Python `int(s)` on a string: surrounding whitespace is
ignored, an optional sign is allowed, the rest must be one or more
digits; `none` models the `ValueError`. -/
def pyInt? (s : String) : Option Int :=
  match pyStripList s.data with
  | [] => none
  | '+' :: cs =>
    if !cs.isEmpty && cs.all Char.isDigit then some (digitsVal cs 0) else none
  | '-' :: cs =>
    if !cs.isEmpty && cs.all Char.isDigit then some (-(digitsVal cs 0 : Int))
    else none
  | cs =>
    if cs.all Char.isDigit then some (digitsVal cs 0) else none

/-! ## History fetcher (`main`, lines 167-192)

The `async for` loop over `client.iter_messages` is embedded as structural
recursion over the provider's stream (newest first).  The result pairs the
buffer (`messages`) with the number of `pbar.update(1)` progress ticks:
a message skipped for lacking a usable date is counted but not buffered,
and the message that triggers the `break` is neither. -/

def fetchLoop (start_date : Option Int) : List Msg → List Msg × Nat
  | [] => ([], 0)
  | m :: rest =>
    match start_date with
    | none =>
      let r := fetchLoop none rest
      (m :: r.1, r.2 + 1)
    | some D =>
      match m.date with
      | none =>
        let r := fetchLoop (some D) rest
        (r.1, r.2 + 1)
      | some d =>
        if d < D then ([], 0)
        else
          let r := fetchLoop (some D) rest
          (m :: r.1, r.2 + 1)

/-- Model of `messages.reverse()` (line 192): the buffer handed downstream, in
oldest-to-newest order. -/
def fetchMessages (start_date : Option Int) (stream : List Msg) : List Msg :=
  (fetchLoop start_date stream).1.reverse

/-- Boolean relation: whenever both messages carry dates, the second is
strictly older.  A stream pairwise under this relation is the provider's
strictly time-descending history order. -/
def msgDateDesc (a b : Msg) : Bool :=
  match a.date, b.date with
  | some da, some db => decide (db < da)
  | _, _ => true

/-- Boolean relation: whenever both messages carry dates, they are in
non-decreasing chronological order. -/
def msgDateLe (a b : Msg) : Bool :=
  match a.date, b.date with
  | some da, some db => decide (da ≤ db)
  | _, _ => true

/-- Executable pairwise check over a message list. -/
def pairwiseB (r : Msg → Msg → Bool) : List Msg → Bool
  | [] => true
  | a :: l => l.all (r a) && pairwiseB r l

/-- The stream is strictly time-descending (dated messages only). -/
def timeDescending (l : List Msg) : Prop := pairwiseB msgDateDesc l = true

/-- The list is in non-decreasing chronological order (dated messages
only; the fetch buffer contains only dated messages when a start date is
set). -/
def chronOrdered (l : List Msg) : Prop := pairwiseB msgDateLe l = true

/-! ## Selection filter (`main`, lines 224-228) -/

/-- Model of `if num_to_copy < total_mensagens: messages = messages[:num_to_copy]`. -/
def selectMessages (messages : List Msg) (num_to_copy : Nat) : List Msg :=
  if num_to_copy < messages.length then messages.take num_to_copy else messages

/-! ## Configuration loader (`ask_env_or_input`, lines 35-67) -/

/-- A resolved configuration value: the string as typed, or the integer it
was converted to when `is_int`. -/
inductive ConfigVal
  | str (s : String)
  | int (n : Int)
  deriving Repr, DecidableEq

/-- The `while True` prompt loop of `ask_env_or_input`, over the sequence
of strings the user types; `none` means the (infinite in reality) input
sequence was exhausted without a valid entry. -/
def promptLoop (isInt : Bool) : List String → Option ConfigVal
  | [] => none
  | v :: rest =>
    let v := pyStrip v
    if v = "" then promptLoop isInt rest
    else if isInt then
      match pyInt? v with
      | some n => some (.int n)
      | none => promptLoop isInt rest
    else some (.str v)

/-- Model of `ask_env_or_input(var_name, prompt_text, is_int)`: `envVal` is
`os.getenv(var_name)` (`none` when unset), `dotenvExists` is
`os.path.exists(\x27.env\x27)`.  The environment value is used only when the
`.env` file exists and the value is truthy (nonempty); in the `is_int`
case a non-integer environment value raises an uncaught `ValueError`,
modelled as `none`. -/
def ask_env_or_input (envVal : Option String) (dotenvExists : Bool)
    (isInt : Bool) (inputs : List String) : Option ConfigVal :=
  match envVal with
  | some s =>
    if dotenvExists && !(s = "") then
      if isInt then (pyInt? s).map ConfigVal.int else some (.str s)
    else promptLoop isInt inputs
  | none => promptLoop isInt inputs

/-! ## Dialog resolver (`choose_dialog`, lines 69-104) -/

/-- A listed dialog: only its `.entity` (modelled by its numeric id)
matters here. -/
structure Dialog where
  entity : Nat
  deriving Repr, DecidableEq

/-- What `choose_dialog` does with one typed line. -/
inductive DialogAction
  | cancelled
  | fromList (entity : Nat)
  | reprompt
  | resolveId (i : Int)
  | resolveName (s : String)
  deriving Repr, DecidableEq

/-- One pass of `choose_dialog` (lines 90-104): strip the input; empty
cancels; an all-digits input is an index — in range it resolves from the
cached list, out of range it re-prompts (the recursive call, `reprompt`);
otherwise a parseable integer is resolved remotely as a raw id and any
other string as a username. -/
def choose_dialog_step (dialogs : List Dialog) (input : String) : DialogAction :=
  let escolha := pyStrip input
  if escolha = "" then .cancelled
  else if pyIsDigit escolha then
    -- idx = int(escolha) - 1 ; 0 <= idx < len(dialogs)
    let n : Nat := pyDigitsToNat escolha
    if h : 1 ≤ n ∧ n ≤ dialogs.length then
      .fromList (dialogs.get ⟨n - 1, by omega⟩).entity
    else .reprompt
  else
    match pyInt? escolha with
    | some i => .resolveId i
    | none => .resolveName escolha

/-- The full `choose_dialog` recursion over the user's successive inputs:
`reprompt` consumes one input and recurses. -/
def choose_dialog (dialogs : List Dialog) : List String → Option DialogAction
  | [] => none
  | inp :: rest =>
    match choose_dialog_step dialogs inp with
    | .reprompt => choose_dialog dialogs rest
    | a => some a

/-! ## Copy-count prompt (`main`, lines 199-222) -/

/-- One interaction at the count prompt: a typed line, or Ctrl-C. -/
inductive CountInput
  | entry (s : String)
  | interrupt
  deriving Repr, DecidableEq

/-- How the count-selection phase ends. -/
inductive CountOutcome
  | chosen (n : Nat)
  | cancelled
  deriving Repr, DecidableEq

/-- The `while True` count prompt wrapped in `try/except
KeyboardInterrupt`: blank chooses the whole total, a parseable `n` with
`1 ≤ n ≤ total` is accepted, anything else re-prompts, and an interrupt
cancels the run. -/
def countLoop (total : Nat) : List CountInput → Option CountOutcome
  | [] => none
  | .interrupt :: _ => some .cancelled
  | .entry escolha :: rest =>
    if pyStrip escolha = "" then some (.chosen total)
    else
      match pyInt? escolha with
      | none => countLoop total rest
      | some n =>
        if n ≤ 0 then countLoop total rest
        else if (total : Int) < n then countLoop total rest
        else some (.chosen n.toNat)

/-! ## Replicator (`main`, lines 232-246) -/

/-- The send decision for one message (lines 235-240): media wins, then
nonempty text, else nothing. -/
inductive Action
  | sendFile (payload : Nat) (caption : String)
  | sendMessage (t : String)
  | skip
  deriving Repr, DecidableEq

/-- Model of `if message.media: ... elif message.text: ... else: continue`. -/
def message_action (m : Msg) : Action :=
  match m.media with
  | some p => .sendFile p m.text
  | none => if m.text = "" then .skip else .sendMessage m.text

/-- What the awaited send call does for a given message: succeed, raise
`FloodWaitError(seconds)`, or raise some other exception. -/
inductive SendOutcome
  | ok
  | floodWait (seconds : Nat)
  | error (msg : String)
  deriving Repr, DecidableEq

/-- Observable events of the replication loop. -/
inductive Event
  | sentFile (payload : Nat) (caption : String)
  | sentText (t : String)
  | logWait (seconds : Nat)
  | slept (seconds : Nat)
  | logError (id : Nat) (err : String)
  deriving Repr, DecidableEq

/-- The `try/except` body for one message: no send call is made for an
empty message; otherwise the single send attempt either emits the send,
or logs and sleeps on `FloodWaitError`, or logs the error — in every case
control falls through to the next message. -/
def processMsg (env : Msg → SendOutcome) (m : Msg) : List Event :=
  match message_action m with
  | .skip => []
  | .sendFile p cap =>
    match env m with
    | .ok => [.sentFile p cap]
    | .floodWait n => [.logWait n, .slept n]
    | .error s => [.logError m.id s]
  | .sendMessage t =>
    match env m with
    | .ok => [.sentText t]
    | .floodWait n => [.logWait n, .slept n]
    | .error s => [.logError m.id s]

/-- The `for message in tqdm(messages, ...)` loop as an event trace. -/
def replicate (env : Msg → SendOutcome) : List Msg → List Event
  | [] => []
  | m :: rest => processMsg env m ++ replicate env rest

/-- Boolean check that a message has a usable date that is `≥ D`. -/
def hasDateGe (D : Int) (m : Msg) : Bool :=
  match m.date with
  | some d => decide (D ≤ d)
  | none => false

/-- Boolean check that a message either lacks a usable date or its date is
`≥ D` (i.e. it does not trigger the `break`). -/
def dateNotBefore (D : Int) (m : Msg) : Bool :=
  match m.date with
  | some d => decide (D ≤ d)
  | none => true

/-! ## Helper lemmas -/

theorem replicate_append (env : Msg → SendOutcome) (l₁ l₂ : List Msg) :
    replicate env (l₁ ++ l₂) = replicate env l₁ ++ replicate env l₂ := by
  induction l₁ with
  | nil => rfl
  | cons m rest ih => simp [replicate, ih]

theorem pairwiseB_iff (r : Msg → Msg → Bool) (l : List Msg) :
    pairwiseB r l = true ↔ l.Pairwise (fun a b => r a b = true) := by
  induction l with
  | nil => simp [pairwiseB]
  | cons a l ih => simp [pairwiseB, List.pairwise_cons, ih, List.all_eq_true, and_comm]

theorem fetchLoop_fst_sublist (sd : Option Int) (stream : List Msg) :
    ((fetchLoop sd stream).1).Sublist stream := by
  induction stream with
  | nil => simp [fetchLoop]
  | cons m rest ih =>
    cases sd with
    | none => simpa [fetchLoop] using ih
    | some D =>
      cases hm : m.date with
      | none => simp only [fetchLoop, hm]; exact ih.cons m
      | some d =>
        by_cases hd : d < D
        · simp [fetchLoop, hm, hd]
        · simpa [fetchLoop, hm, hd] using ih

theorem fetchLoop_all_ge (D : Int) (stream : List Msg) :
    ((fetchLoop (some D) stream).1).all (hasDateGe D) = true := by
  induction stream with
  | nil => rfl
  | cons m rest ih =>
    cases hm : m.date with
    | none => simpa [fetchLoop, hm] using ih
    | some d =>
      by_cases hd : d < D
      · simp [fetchLoop, hm, hd]
      · simp only [fetchLoop, hm, hd, if_false, List.all_cons, ih, Bool.and_true]
        simp [hasDateGe, hm]
        omega

theorem fetchLoop_break (D : Int) (mOld : Msg) (dOld : Int) (post : List Msg)
    (hm : mOld.date = some dOld) (hd : dOld < D) :
    ∀ pre : List Msg, pre.all (dateNotBefore D) = true →
      fetchLoop (some D) (pre ++ mOld :: post) = ((fetchLoop (some D) pre).1, pre.length)
  | [], _ => by simp [fetchLoop, hm, hd]
  | p :: pre, hall => by
    have hp : dateNotBefore D p = true := by
      have := (List.all_eq_true.mp hall) p (by simp)
      exact this
    have htl : pre.all (dateNotBefore D) = true := by
      rw [List.all_eq_true]
      intro x hx
      exact (List.all_eq_true.mp hall) x (by simp [hx])
    have ih := fetchLoop_break D mOld dOld post hm hd pre htl
    cases hp2 : p.date with
    | none => simp [fetchLoop, hp2, ih]
    | some dp =>
      have hge : D ≤ dp := by
        have := hp
        simp [dateNotBefore, hp2] at this
        exact this
      have : ¬ dp < D := by omega
      simp [fetchLoop, hp2, this, ih]

theorem msgDateDesc_flip (a b : Msg) (h : msgDateDesc a b = true) :
    msgDateLe b a = true := by
  unfold msgDateDesc at h
  unfold msgDateLe
  cases ha : a.date with
  | none => cases b.date <;> simp
  | some da =>
    cases hb : b.date with
    | none => simp
    | some db =>
      rw [ha, hb] at h
      simp at h ⊢
      omega

/-! ## Claim theorems -/

/-- C1: for every fetched buffer and every copy count `N ≤ T`, the
sequence handed to the replicator is exactly the first `N` entries of the
oldest-to-newest buffer; with `N = T` the buffer is unchanged, and a blank
entry at the count prompt chooses the whole total. -/
theorem C1_selection_takes_oldest (messages : List Msg) (N : Nat)
    (rest : List CountInput) (h : N ≤ messages.length) :
    selectMessages messages N = messages.take N ∧
    selectMessages messages messages.length = messages ∧
    countLoop messages.length (.entry "" :: rest) =
      some (.chosen messages.length) := by
  refine ⟨?_, ?_, ?_⟩
  · unfold selectMessages
    split
    · rfl
    · next hlt =>
        have : N = messages.length := by omega
        subst this
        simp
  · simp [selectMessages]
  · have h0 : pyStrip "" = "" := by decide
    simp [countLoop, h0]

theorem C1_selection_takes_oldest_witness :
    selectMessages [⟨1, none, "a", none⟩, ⟨2, none, "b", none⟩] 1 =
      [Msg.mk 1 none "a" none, Msg.mk 2 none "b" none].take 1 ∧
    selectMessages [⟨1, none, "a", none⟩, ⟨2, none, "b", none⟩]
        [Msg.mk 1 none "a" none, Msg.mk 2 none "b" none].length =
      [Msg.mk 1 none "a" none, Msg.mk 2 none "b" none] ∧
    countLoop [Msg.mk 1 none "a" none, Msg.mk 2 none "b" none].length
        [.entry ""] =
      some (.chosen [Msg.mk 1 none "a" none, Msg.mk 2 none "b" none].length) :=
  C1_selection_takes_oldest [⟨1, none, "a", none⟩, ⟨2, none, "b", none⟩] 1
    [] (by decide)

/-- C9: with no configured start date, the fetch loop buffers every
message of the stream (including dateless ones) and counts each one; the
buffer handed downstream is the whole stream reversed, so every iterated
message is in it. -/
theorem C9_no_start_date_keeps_all (stream : List Msg) :
    fetchLoop none stream = (stream, stream.length) ∧
    fetchMessages none stream = stream.reverse ∧
    ∀ m ∈ stream, m ∈ fetchMessages none stream := by
  have h : fetchLoop none stream = (stream, stream.length) := by
    induction stream with
    | nil => rfl
    | cons m rest ih => simp [fetchLoop, ih]
  refine ⟨h, by simp [fetchMessages, h], ?_⟩
  intro m hm
  simp [fetchMessages, h, hm]

/-- C3: when the send call raises a rate-limit signal asking for `n`
seconds, the loop logs the wait, sleeps exactly `n` seconds, and moves to
the next message; the triggering message is not re-attempted — its whole
contribution to the trace is the log and the sleep, and the rest of the
trace is exactly the replication of the remaining messages. -/
theorem C3_floodwait_advances (env : Msg → SendOutcome) (m : Msg)
    (rest : List Msg) (n : Nat)
    (henv : env m = .floodWait n) (hsend : message_action m ≠ .skip) :
    processMsg env m = [.logWait n, .slept n] ∧
    replicate env (m :: rest) = .logWait n :: .slept n :: replicate env rest := by
  have h1 : processMsg env m = [.logWait n, .slept n] := by
    cases hact : message_action m with
    | skip => exact absurd hact hsend
    | sendFile p cap => simp [processMsg, hact, henv]
    | sendMessage t => simp [processMsg, hact, henv]
  exact ⟨h1, by simp [replicate, h1]⟩

theorem C3_floodwait_advances_witness :
    processMsg (fun _ => SendOutcome.floodWait 30) ⟨7, none, "t", some 3⟩ =
      [.logWait 30, .slept 30] ∧
    replicate (fun _ => SendOutcome.floodWait 30) (⟨7, none, "t", some 3⟩ :: []) =
      .logWait 30 :: .slept 30 ::
        replicate (fun _ => SendOutcome.floodWait 30) [] :=
  C3_floodwait_advances (fun _ => SendOutcome.floodWait 30)
    ⟨7, none, "t", some 3⟩ [] 30 rfl (by decide)

/-- C6: per message, a successful pass sends the media payload with the
text body as caption when media is present, else a plain text message when
the text body is nonempty, else nothing at all. -/
theorem C6_send_policy (env : Msg → SendOutcome) (m : Msg)
    (henv : env m = .ok) :
    (∀ p, m.media = some p → processMsg env m = [.sentFile p m.text]) ∧
    (m.media = none → m.text ≠ "" → processMsg env m = [.sentText m.text]) ∧
    (m.media = none → m.text = "" → processMsg env m = []) := by
  refine ⟨?_, ?_, ?_⟩
  · intro p hp
    simp [processMsg, message_action, hp, henv]
  · intro hp ht
    simp [processMsg, message_action, hp, ht, henv]
  · intro hp ht
    simp [processMsg, message_action, hp, ht]

theorem C6_send_policy_witness :
    processMsg (fun _ => SendOutcome.ok) ⟨1, none, "cap", some 5⟩ =
      [.sentFile 5 "cap"] ∧
    processMsg (fun _ => SendOutcome.ok) ⟨2, none, "hello", none⟩ =
      [.sentText "hello"] ∧
    processMsg (fun _ => SendOutcome.ok) ⟨3, none, "", none⟩ = [] :=
  ⟨(C6_send_policy (fun _ => SendOutcome.ok) ⟨1, none, "cap", some 5⟩ rfl).1
      5 rfl,
   (C6_send_policy (fun _ => SendOutcome.ok) ⟨2, none, "hello", none⟩ rfl).2.1
      rfl (by decide),
   (C6_send_policy (fun _ => SendOutcome.ok) ⟨3, none, "", none⟩ rfl).2.2
      rfl rfl⟩

/-- C7: any non-rate-limit error while sending one message is logged with
that message's id and the loop continues: the trace of the whole selection
splits around the failing message, so the loop still reaches its end. -/
theorem C7_error_logged_continue (env : Msg → SendOutcome) (m : Msg)
    (pre rest : List Msg) (s : String)
    (henv : env m = .error s) (hsend : message_action m ≠ .skip) :
    processMsg env m = [.logError m.id s] ∧
    replicate env (pre ++ m :: rest) =
      replicate env pre ++ .logError m.id s :: replicate env rest := by
  have h1 : processMsg env m = [.logError m.id s] := by
    cases hact : message_action m with
    | skip => exact absurd hact hsend
    | sendFile p cap => simp [processMsg, hact, henv]
    | sendMessage t => simp [processMsg, hact, henv]
  refine ⟨h1, ?_⟩
  rw [replicate_append]
  simp [replicate, h1]

/-- C8: the count prompt accepts only a parseable integer in
`1..total` (or blank, which chooses the whole total); any other entry
consumes one input and re-prompts; a keyboard interrupt ends the phase
with a clean cancellation. -/
theorem C8_count_prompt (total n : Nat) (inputs rest : List CountInput)
    (s : String) :
    (countLoop total inputs = some (.chosen n) →
      n = total ∨ (1 ≤ n ∧ n ≤ total)) ∧
    (pyStrip s ≠ "" →
      (pyInt? s = none ∨ ∃ k, pyInt? s = some k ∧ (k ≤ 0 ∨ (total : Int) < k)) →
      countLoop total (.entry s :: rest) = countLoop total rest) ∧
    countLoop total (.interrupt :: rest) = some .cancelled := by
  refine ⟨?_, ?_, rfl⟩
  · induction inputs with
    | nil => intro h; simp [countLoop] at h
    | cons i tl ih =>
      cases i with
      | interrupt =>
        intro h
        simp [countLoop] at h
      | entry e =>
        intro h
        by_cases he : pyStrip e = ""
        · simp [countLoop, he] at h
          omega
        · simp only [countLoop, he, if_false] at h
          cases hp : pyInt? e with
          | none => rw [hp] at h; exact ih h
          | some k =>
            rw [hp] at h
            dsimp only at h
            by_cases hk : k ≤ 0
            · rw [if_pos hk] at h; exact ih h
            · rw [if_neg hk] at h
              by_cases hk2 : (total : Int) < k
              · rw [if_pos hk2] at h; exact ih h
              · rw [if_neg hk2] at h
                simp at h
                right
                omega
  · intro hne hinv
    rcases hinv with hp | ⟨k, hp, hk⟩
    · simp [countLoop, hne, hp]
    · rcases hk with hk | hk
      · simp [countLoop, hne, hp, hk]
      · have hk0 : ¬ k ≤ 0 := by omega
        simp [countLoop, hne, hp, hk, hk0]

theorem C8_count_prompt_witness :
    (5 = 10 ∨ (1 ≤ 5 ∧ 5 ≤ 10)) ∧
    countLoop 10 [.entry "0", .entry "5"] = countLoop 10 [.entry "5"] ∧
    countLoop 10 [.interrupt, .entry "5"] = some .cancelled := by
  have h := C8_count_prompt 10 5 [.entry "0", .entry "5"] [.entry "5"] "0"
  exact ⟨h.1 (by decide),
         h.2.1 (by decide) (Or.inr ⟨0, by decide, Or.inl (by decide)⟩),
         h.2.2⟩

/-! Shared facts about one pass of `choose_dialog`. -/

theorem choose_step_empty (dialogs : List Dialog) (input : String)
    (h : pyStrip input = "") :
    choose_dialog_step dialogs input = .cancelled := by
  simp [choose_dialog_step, h]

theorem choose_step_digit_in_range (dialogs : List Dialog) (input : String)
    (hd : pyIsDigit (pyStrip input) = true)
    (h1 : 1 ≤ pyDigitsToNat (pyStrip input))
    (h2 : pyDigitsToNat (pyStrip input) ≤ dialogs.length) :
    choose_dialog_step dialogs input =
      .fromList ((dialogs.getD (pyDigitsToNat (pyStrip input) - 1) ⟨0⟩).entity) := by
  have hne : pyStrip input ≠ "" := by
    intro h0
    rw [h0] at hd
    simp [pyIsDigit] at hd
  have hrange : 1 ≤ pyDigitsToNat (pyStrip input) ∧
      pyDigitsToNat (pyStrip input) ≤ dialogs.length := ⟨h1, h2⟩
  have hlt : pyDigitsToNat (pyStrip input) - 1 < dialogs.length := by omega
  simp only [choose_dialog_step, if_neg hne, hd, if_true, dif_pos hrange]
  rw [List.getD_eq_getElem dialogs ⟨0⟩ hlt]
  rfl

theorem choose_step_digit_out_of_range (dialogs : List Dialog) (input : String)
    (hd : pyIsDigit (pyStrip input) = true)
    (h : pyDigitsToNat (pyStrip input) = 0 ∨
      dialogs.length < pyDigitsToNat (pyStrip input)) :
    choose_dialog_step dialogs input = .reprompt := by
  have hne : pyStrip input ≠ "" := by
    intro h0
    rw [h0] at hd
    simp [pyIsDigit] at hd
  have hrange : ¬ (1 ≤ pyDigitsToNat (pyStrip input) ∧
      pyDigitsToNat (pyStrip input) ≤ dialogs.length) := by omega
  simp [choose_dialog_step, if_neg hne, hd, dif_neg hrange]

theorem choose_step_nondigit_id (dialogs : List Dialog) (input : String)
    (i : Int) (hd : pyIsDigit (pyStrip input) = false)
    (hne : pyStrip input ≠ "") (hp : pyInt? (pyStrip input) = some i) :
    choose_dialog_step dialogs input = .resolveId i := by
  simp [choose_dialog_step, hne, hd, hp]

theorem choose_step_nondigit_name (dialogs : List Dialog) (input : String)
    (hd : pyIsDigit (pyStrip input) = false)
    (hne : pyStrip input ≠ "") (hp : pyInt? (pyStrip input) = none) :
    choose_dialog_step dialogs input = .resolveName (pyStrip input) := by
  simp [choose_dialog_step, hne, hd, hp]

theorem choose_dialog_reprompt_step (dialogs : List Dialog) (input : String)
    (rest : List String) (h : choose_dialog_step dialogs input = .reprompt) :
    choose_dialog dialogs (input :: rest) = choose_dialog dialogs rest := by
  simp [choose_dialog, h]

/-- C4 as stated is false: with two cached dialogs, the all-digits input
"5" is numeric and out of the listed range, yet it is not resolved
remotely as the raw id 5 — the code prints an error and re-prompts. -/
theorem C4_out_of_range_counterexample :
    choose_dialog_step [⟨11⟩, ⟨22⟩] "5" = .reprompt ∧
    choose_dialog_step [⟨11⟩, ⟨22⟩] "5" ≠ .resolveId 5 := by decide

/-- C4 amended: an all-digits input in range resolves from the cached
list; an all-digits input out of range re-prompts (the recursive retry)
rather than being resolved remotely; a non-digits input parseable as an
integer is resolved remotely as a raw id, any other nonempty input as a
username, and an empty input cancels. -/
theorem C4_dialog_resolution (dialogs : List Dialog) (input : String)
    (i : Int) (rest : List String) :
    (pyStrip input = "" → choose_dialog_step dialogs input = .cancelled) ∧
    (pyIsDigit (pyStrip input) = true →
      1 ≤ pyDigitsToNat (pyStrip input) →
      pyDigitsToNat (pyStrip input) ≤ dialogs.length →
      choose_dialog_step dialogs input =
        .fromList ((dialogs.getD (pyDigitsToNat (pyStrip input) - 1) ⟨0⟩).entity)) ∧
    (pyIsDigit (pyStrip input) = true →
      (pyDigitsToNat (pyStrip input) = 0 ∨
        dialogs.length < pyDigitsToNat (pyStrip input)) →
      choose_dialog_step dialogs input = .reprompt) ∧
    (pyIsDigit (pyStrip input) = false → pyStrip input ≠ "" →
      pyInt? (pyStrip input) = some i →
      choose_dialog_step dialogs input = .resolveId i) ∧
    (pyIsDigit (pyStrip input) = false → pyStrip input ≠ "" →
      pyInt? (pyStrip input) = none →
      choose_dialog_step dialogs input = .resolveName (pyStrip input)) ∧
    (choose_dialog_step dialogs input = .reprompt →
      choose_dialog dialogs (input :: rest) = choose_dialog dialogs rest) :=
  ⟨choose_step_empty dialogs input,
   choose_step_digit_in_range dialogs input,
   choose_step_digit_out_of_range dialogs input,
   choose_step_nondigit_id dialogs input i,
   choose_step_nondigit_name dialogs input,
   choose_dialog_reprompt_step dialogs input rest⟩

theorem C4_dialog_resolution_witness :
    choose_dialog_step [⟨11⟩, ⟨22⟩] "" = .cancelled ∧
    choose_dialog_step [⟨11⟩, ⟨22⟩] "2" =
      .fromList ((([⟨11⟩, ⟨22⟩] : List Dialog).getD
        (pyDigitsToNat (pyStrip "2") - 1) ⟨0⟩).entity) ∧
    choose_dialog_step [⟨11⟩, ⟨22⟩] "7" = .reprompt ∧
    choose_dialog_step [⟨11⟩, ⟨22⟩] "-42" = .resolveId (-42) ∧
    choose_dialog_step [⟨11⟩, ⟨22⟩] "@user" = .resolveName (pyStrip "@user") ∧
    choose_dialog [⟨11⟩, ⟨22⟩] ["7", "2"] = choose_dialog [⟨11⟩, ⟨22⟩] ["2"] :=
  ⟨(C4_dialog_resolution [⟨11⟩, ⟨22⟩] "" 0 []).1 (by decide),
   (C4_dialog_resolution [⟨11⟩, ⟨22⟩] "2" 0 []).2.1 (by decide) (by decide)
     (by decide),
   (C4_dialog_resolution [⟨11⟩, ⟨22⟩] "7" 0 []).2.2.1 (by decide)
     (Or.inr (by decide)),
   (C4_dialog_resolution [⟨11⟩, ⟨22⟩] "-42" (-42) []).2.2.2.1 (by decide)
     (by decide) (by decide),
   (C4_dialog_resolution [⟨11⟩, ⟨22⟩] "@user" 0 []).2.2.2.2.1 (by decide)
     (by decide) (by decide),
   (C4_dialog_resolution [⟨11⟩, ⟨22⟩] "7" 0 ["2"]).2.2.2.2.2 (by decide)⟩

/-- C10: only all-digits inputs are ever treated as list indices (and an
out-of-range one re-prompts, it is never resolved remotely); an input that
parses as an integer but contains a non-digit character — such as the
negative platform id "-1001234" — bypasses the index check and is resolved
remotely as a raw numeric id. -/
theorem C10_digit_only_index (dialogs : List Dialog) (input : String)
    (i : Int) :
    (pyIsDigit (pyStrip input) = true →
      (pyDigitsToNat (pyStrip input) = 0 ∨
        dialogs.length < pyDigitsToNat (pyStrip input)) →
      choose_dialog_step dialogs input = .reprompt) ∧
    (pyIsDigit (pyStrip input) = false → pyStrip input ≠ "" →
      pyInt? (pyStrip input) = some i →
      choose_dialog_step dialogs input = .resolveId i) ∧
    choose_dialog_step dialogs "-1001234" = .resolveId (-1001234) :=
  ⟨choose_step_digit_out_of_range dialogs input,
   choose_step_nondigit_id dialogs input i,
   choose_step_nondigit_id dialogs "-1001234" (-1001234) (by decide) (by decide)
     (by decide)⟩

theorem C10_digit_only_index_witness :
    choose_dialog_step [⟨11⟩, ⟨22⟩] "200" = .reprompt ∧
    choose_dialog_step [⟨11⟩, ⟨22⟩] " -7 " = .resolveId (-7) ∧
    choose_dialog_step [⟨11⟩, ⟨22⟩] "-1001234" = .resolveId (-1001234) :=
  ⟨(C10_digit_only_index [⟨11⟩, ⟨22⟩] "200" 0).1 (by decide)
     (Or.inr (by decide)),
   (C10_digit_only_index [⟨11⟩, ⟨22⟩] " -7 " (-7)).2.1 (by decide) (by decide)
     (by decide),
   (C10_digit_only_index [⟨11⟩, ⟨22⟩] "" 0).2.2⟩

/-- C5 as stated is false: with the environment variable set ("42") but no
`.env` file on disk, the loader ignores the environment value and prompts;
given the typed reply "7" it returns 7, not 42. -/
theorem C5_env_counterexample :
    ask_env_or_input (some "42") false true ["7"] = some (.int 7) ∧
    ask_env_or_input (some "42") false true ["7"] ≠ some (.int 42) := by
  decide

/-- C5 amended: the environment value is returned (converted to integer
where required) only when the `.env` file exists and the value is
nonempty; otherwise — including when the variable is set but no `.env`
file exists — the loader prompts, skipping blank and (where an integer is
required) unparseable entries, until a non-empty and, where required,
integer-parseable value is supplied. -/
theorem C5_config_loader (envVal : Option String) (dotenv isInt : Bool)
    (inputs rest : List String) (s entry : String) (n : Int) :
    (dotenv = true → envVal = some s → s ≠ "" →
      ask_env_or_input envVal dotenv isInt inputs =
        (if isInt then (pyInt? s).map ConfigVal.int else some (.str s))) ∧
    (dotenv = false →
      ask_env_or_input envVal dotenv isInt inputs = promptLoop isInt inputs) ∧
    (ask_env_or_input none dotenv isInt inputs = promptLoop isInt inputs) ∧
    (ask_env_or_input (some "") dotenv isInt inputs = promptLoop isInt inputs) ∧
    (pyStrip entry = "" →
      promptLoop isInt (entry :: rest) = promptLoop isInt rest) ∧
    (isInt = true → pyStrip entry ≠ "" → pyInt? (pyStrip entry) = none →
      promptLoop isInt (entry :: rest) = promptLoop isInt rest) ∧
    (isInt = true → pyStrip entry ≠ "" → pyInt? (pyStrip entry) = some n →
      promptLoop isInt (entry :: rest) = some (.int n)) ∧
    (isInt = false → pyStrip entry ≠ "" →
      promptLoop isInt (entry :: rest) = some (.str (pyStrip entry))) := by
  refine ⟨?_, ?_, ?_, ?_, ?_, ?_, ?_, ?_⟩
  · intro hd he hs
    subst hd he
    simp [ask_env_or_input, hs]
  · intro hd
    subst hd
    cases envVal <;> simp [ask_env_or_input]
  · rfl
  · simp [ask_env_or_input]
  · intro he
    simp [promptLoop, he]
  · intro hi hne hp
    subst hi
    simp [promptLoop, hne, hp]
  · intro hi hne hp
    subst hi
    simp [promptLoop, hne, hp]
  · intro hi hne
    subst hi
    simp [promptLoop, hne]

theorem C5_config_loader_witness :
    ask_env_or_input (some "42") true true ["7"] =
      (if true then (pyInt? "42").map ConfigVal.int else some (.str "42")) ∧
    ask_env_or_input (some "42") false true ["7"] = promptLoop true ["7"] ∧
    ask_env_or_input none true true ["7"] = promptLoop true ["7"] ∧
    ask_env_or_input (some "") true true ["7"] = promptLoop true ["7"] ∧
    promptLoop true (" " :: ["9"]) = promptLoop true ["9"] ∧
    promptLoop true ("abc" :: ["9"]) = promptLoop true ["9"] ∧
    promptLoop true (" 9 " :: []) = some (.int 9) ∧
    promptLoop false ("x" :: []) = some (.str (pyStrip "x")) :=
  ⟨(C5_config_loader (some "42") true true ["7"] [] "42" "" 0).1 rfl rfl
     (by decide),
   (C5_config_loader (some "42") false true ["7"] [] "" "" 0).2.1 rfl,
   (C5_config_loader none true true ["7"] [] "" "" 0).2.2.1,
   (C5_config_loader (some "") true true ["7"] [] "" "" 0).2.2.2.1,
   (C5_config_loader none true true [] ["9"] "" " " 0).2.2.2.2.1 (by decide),
   (C5_config_loader none true true [] ["9"] "" "abc" 0).2.2.2.2.2.1 rfl
     (by decide) (by decide),
   (C5_config_loader none true true [] [] "" " 9 " 9).2.2.2.2.2.2.1 rfl
     (by decide) (by decide),
   (C5_config_loader none true false [] [] "" "x" 0).2.2.2.2.2.2.2 rfl
     (by decide)⟩

/-- C2: with a configured start date `D` and a provider stream that is
strictly time-descending, every message the fetch loop retains carries a
usable date `≥ D` (so dateless messages are never retained); a dateless
message is skipped but still counted in progress; iteration stops at the
first dated message older than `D`, discarding it and everything after
it; and the buffer returned after the final reversal is in non-decreasing
chronological order. -/
theorem C2_date_filter (D dOld : Int) (stream pre post rest2 : List Msg)
    (mN mOld : Msg) (hdesc : timeDescending stream) :
    ((fetchLoop (some D) stream).1.all (hasDateGe D) = true) ∧
    (mN.date = none → fetchLoop (some D) (mN :: rest2) =
      ((fetchLoop (some D) rest2).1, (fetchLoop (some D) rest2).2 + 1)) ∧
    (stream = pre ++ mOld :: post → mOld.date = some dOld → dOld < D →
      pre.all (dateNotBefore D) = true →
      fetchLoop (some D) stream = ((fetchLoop (some D) pre).1, pre.length)) ∧
    chronOrdered (fetchMessages (some D) stream) := by
  refine ⟨fetchLoop_all_ge D stream, ?_, ?_, ?_⟩
  · intro hN
    simp [fetchLoop, hN]
  · intro hs hm hd hall
    subst hs
    exact fetchLoop_break D mOld dOld post hm hd pre hall
  · have hsub := fetchLoop_fst_sublist (some D) stream
    have hPW : ((fetchLoop (some D) stream).1).Pairwise
        (fun a b => msgDateDesc a b = true) :=
      ((pairwiseB_iff _ _).mp hdesc).sublist hsub
    rw [chronOrdered, pairwiseB_iff, fetchMessages, List.pairwise_reverse]
    exact hPW.imp (fun h => msgDateDesc_flip _ _ h)

theorem C2_date_filter_witness :
    ((fetchLoop (some 5)
        [⟨1, some 10, "a", none⟩, ⟨2, none, "b", none⟩, ⟨3, some 7, "c", none⟩,
         ⟨4, some 3, "d", none⟩]).1.all (hasDateGe 5) = true) ∧
    fetchLoop (some 5) (⟨2, none, "b", none⟩ :: [⟨3, some 7, "c", none⟩]) =
      ((fetchLoop (some 5) [⟨3, some 7, "c", none⟩]).1,
       (fetchLoop (some 5) [⟨3, some 7, "c", none⟩]).2 + 1) ∧
    fetchLoop (some 5)
        [⟨1, some 10, "a", none⟩, ⟨2, none, "b", none⟩, ⟨3, some 7, "c", none⟩,
         ⟨4, some 3, "d", none⟩] =
      ((fetchLoop (some 5)
          [⟨1, some 10, "a", none⟩, ⟨2, none, "b", none⟩,
           ⟨3, some 7, "c", none⟩]).1,
       ([⟨1, some 10, "a", none⟩, ⟨2, none, "b", none⟩,
         ⟨3, some 7, "c", none⟩] : List Msg).length) ∧
    chronOrdered (fetchMessages (some 5)
        [⟨1, some 10, "a", none⟩, ⟨2, none, "b", none⟩, ⟨3, some 7, "c", none⟩,
         ⟨4, some 3, "d", none⟩]) := by
  have h := C2_date_filter 5 3
    [⟨1, some 10, "a", none⟩, ⟨2, none, "b", none⟩, ⟨3, some 7, "c", none⟩,
     ⟨4, some 3, "d", none⟩]
    [⟨1, some 10, "a", none⟩, ⟨2, none, "b", none⟩, ⟨3, some 7, "c", none⟩]
    [] [⟨3, some 7, "c", none⟩] ⟨2, none, "b", none⟩ ⟨4, some 3, "d", none⟩
    (by unfold timeDescending; decide)
  exact ⟨h.1, h.2.1 rfl, h.2.2.1 rfl rfl (by decide) (by decide), h.2.2.2⟩

theorem C7_error_logged_continue_witness :
    processMsg (fun _ => SendOutcome.error "boom") ⟨9, none, "x", none⟩ =
      [.logError 9 "boom"] ∧
    replicate (fun _ => SendOutcome.error "boom")
        ([] ++ ⟨9, none, "x", none⟩ :: []) =
      replicate (fun _ => SendOutcome.error "boom") [] ++
        .logError 9 "boom" :: replicate (fun _ => SendOutcome.error "boom") [] :=
  C7_error_logged_continue (fun _ => SendOutcome.error "boom")
    ⟨9, none, "x", none⟩ [] [] "boom" rfl (by decide)

end Clonner
